import Mathlib

/-!
Shallow embedding of the Skia excerpt's state-assembly layer:
`GrClip` (include/gpu/GrClip.h), `GrPipelineBuilder`
(src/gpu/GrPipelineBuilder.h) with its scoped guards and
invariant-analysis cache, and `SkCachingPixelRef`
(src/lazy/SkCachingPixelRef.cpp).  Pure functions become Lean
functions; mutation becomes explicit state passing; reference-counted
pointers become value sharing (`Option` for nullable pointers).
Machine integers are `Nat`/`Int` with explicit 32-bit masking where it
matters.  Components whose bodies are outside the excerpt are modelled
from the spec and carry a `Modelled from the spec:` doc comment.
-/

set_option maxRecDepth 4000

/-- `SkIPoint`: integer 2D point (external Skia geometry type; only its
coordinates and `setZero` are used by the excerpt). -/
structure SkIPoint where
  fX : Int
  fY : Int
deriving DecidableEq, Repr

/-- The zero point produced by `SkIPoint::setZero()`. -/
def SkIPoint.zero : SkIPoint := ⟨0, 0⟩

/-- `SkIRect`: integer rectangle (external Skia geometry type). -/
structure SkIRect where
  fLeft : Int
  fTop : Int
  fRight : Int
  fBottom : Int
deriving DecidableEq, Repr

/-- `SkRect`: scalar rectangle.  Scalars only flow through order
comparisons in the excerpt, so `SkScalar` is modelled as `Int`. -/
structure SkRect where
  fLeft : Int
  fTop : Int
  fRight : Int
  fBottom : Int
deriving DecidableEq, Repr

/-- `SkIRect::isEmpty()`: empty when width or height is not positive. -/
def SkIRect.isEmpty (r : SkIRect) : Bool :=
  r.fLeft ≥ r.fRight || r.fTop ≥ r.fBottom

/-- `SkRect::isEmpty()`. -/
def SkRect.isEmpty (r : SkRect) : Bool :=
  r.fLeft ≥ r.fRight || r.fTop ≥ r.fBottom

/-- Modelled from the spec: `SkIRect::contains(const SkIRect&)` is
outside the excerpt; the spec treats rectangle containment as an opaque
predicate of the stored rectangle and the candidate area.  Standard
Skia semantics: neither rect empty and the candidate's edges lie within
this rect's edges. -/
def SkIRect.contains (r : SkIRect) (o : SkIRect) : Bool :=
  !o.isEmpty && !r.isEmpty &&
    r.fLeft ≤ o.fLeft && r.fTop ≤ o.fTop &&
    r.fRight ≥ o.fRight && r.fBottom ≥ o.fBottom

/-- Modelled from the spec: `SkIRect::contains(const SkRect&)` (scalar
candidate), outside the excerpt; same containment shape with the
integer edges compared against the scalar edges. -/
def SkIRect.containsR (r : SkIRect) (o : SkRect) : Bool :=
  !o.isEmpty && !r.isEmpty &&
    r.fLeft ≤ o.fLeft && r.fTop ≤ o.fTop &&
    r.fRight ≥ o.fRight && r.fBottom ≥ o.fBottom

/-- `SkClipStack`: the externally-owned ordered clip-op stack.  The
excerpt uses only `isWideOpen()`, structural equality and reference
counting, so the stack is modelled as an identity tag plus its
wide-open report; structural content equality is Lean equality. -/
structure SkClipStack where
  id : Nat
  wideOpen : Bool
deriving DecidableEq, Repr

/-- `SkClipStack::isWideOpen()`. -/
def SkClipStack.isWideOpen (s : SkClipStack) : Bool := s.wideOpen

/-- `GrClip::ClipType` (GrClip.h lines 162-166). -/
inductive ClipType where
  | kClipStack_ClipType
  | kWideOpen_ClipType
  | kIRect_ClipType
deriving DecidableEq, Repr

/-- `GrClip` (GrClip.h).  The C++ union payload is modelled as both
members side by side; the pointer member is `Option` since the code
itself compares it against null in `operator==`. -/
structure GrClip where
  fStack : Option SkClipStack
  fIRect : SkIRect
  fOrigin : SkIPoint
  fClipType : ClipType
deriving DecidableEq, Repr

/-- `GrClip::GrClip()` (GrClip.h lines 28-30): wide open, zero origin.
The union payload is uninitialized in C++; it is given fixed inert
values here. -/
def GrClip.ctor : GrClip :=
  { fStack := none, fIRect := ⟨0, 0, 0, 0⟩, fOrigin := SkIPoint.zero,
    fClipType := .kWideOpen_ClipType }

/-- `GrClip::GrClip(const SkIRect&)` (GrClip.h lines 31-34). -/
def GrClip.ctorIRect (rect : SkIRect) : GrClip :=
  { fStack := none, fIRect := rect, fOrigin := SkIPoint.zero,
    fClipType := .kIRect_ClipType }

/-- `GrClip::reset()` (GrClip.h lines 116-123): drop the stack
reference if held, become wide open with zero origin. -/
def GrClip.reset (c : GrClip) : GrClip :=
  { c with
    fStack := if c.fClipType = .kClipStack_ClipType then none else c.fStack,
    fClipType := .kWideOpen_ClipType,
    fOrigin := SkIPoint.zero }

/-- `GrClip::operator=` (GrClip.h lines 37-56): reset, then copy the
tag and the tag's payload (sharing the stack reference). -/
def GrClip.assign (c other : GrClip) : GrClip :=
  let base := c.reset
  match other.fClipType with
  | .kWideOpen_ClipType =>
      { base with fClipType := .kWideOpen_ClipType, fOrigin := SkIPoint.zero }
  | .kClipStack_ClipType =>
      { base with fClipType := .kClipStack_ClipType,
                  fStack := other.fStack, fOrigin := other.fOrigin }
  | .kIRect_ClipType =>
      { base with fClipType := .kIRect_ClipType,
                  fIRect := other.fIRect, fOrigin := SkIPoint.zero }

/-- `GrClip::operator==` (GrClip.h lines 58-84): tags must match;
wide-open pairs are equal; stack pairs compare origin then contents
when both stacks are non-null, else the pointers; rect pairs compare
bounds. -/
def GrClip.beq (c other : GrClip) : Bool :=
  if c.fClipType ≠ other.fClipType then false
  else
    match c.fClipType with
    | .kWideOpen_ClipType => true
    | .kClipStack_ClipType =>
        if c.fOrigin ≠ other.fOrigin then false
        else
          match c.fStack, other.fStack with
          | some s, some t => decide (s = t)
          | none, none => true
          | _, _ => false
    | .kIRect_ClipType => decide (c.fIRect = other.fIRect)

/-- `GrClip::operator!=` (GrClip.h lines 86-88). -/
def GrClip.bne (c other : GrClip) : Bool := !(c.beq other)

/-- `GrClip::setClipStack` (GrClip.h lines 95-109): reset, then either
collapse to wide open (when the stack reports wide open) or store the
stack reference and the (defaulted-to-zero) origin. -/
def GrClip.setClipStack (c : GrClip) (clipStack : SkClipStack)
    (origin : Option SkIPoint) : GrClip :=
  let base := c.reset
  if clipStack.isWideOpen then
    { base with fClipType := .kWideOpen_ClipType, fOrigin := SkIPoint.zero }
  else
    { base with fClipType := .kClipStack_ClipType,
                fStack := some clipStack,
                fOrigin := origin.getD SkIPoint.zero }

/-- The wide-open report of the held stack pointer; null dereference in
C++ is unreachable on the states the excerpt builds, modelled as
`false` on a null pointer. -/
def GrClip.stackWideOpen (c : GrClip) : Bool :=
  match c.fStack with
  | some s => s.isWideOpen
  | none => false

/-- `GrClip::isWideOpen()` (GrClip.h lines 144-147). -/
def GrClip.isWideOpen (c : GrClip) : Bool :=
  (c.fClipType = .kWideOpen_ClipType) ||
  (c.fClipType = .kClipStack_ClipType && c.stackWideOpen)

/-- `GrClip::isWideOpen(const SkIRect&)` (GrClip.h lines 138-142). -/
def GrClip.isWideOpenI (c : GrClip) (rect : SkIRect) : Bool :=
  (c.fClipType = .kWideOpen_ClipType) ||
  (c.fClipType = .kClipStack_ClipType && c.stackWideOpen) ||
  (c.fClipType = .kIRect_ClipType && c.fIRect.contains rect)

/-- `GrClip::isWideOpen(const SkRect&)` (GrClip.h lines 132-136). -/
def GrClip.isWideOpenR (c : GrClip) (rect : SkRect) : Bool :=
  (c.fClipType = .kWideOpen_ClipType) ||
  (c.fClipType = .kClipStack_ClipType && c.stackWideOpen) ||
  (c.fClipType = .kIRect_ClipType && c.fIRect.containsR rect)

/-- `SkXfermode::Mode`: the Porter-Duff blend-mode enum (external
SkXfermode.h; the excerpt names `kSrc_Mode` explicitly). -/
inductive SkXfermodeMode where
  | kClear_Mode
  | kSrc_Mode
  | kDst_Mode
  | kSrcOver_Mode
  | kDstOver_Mode
  | kSrcIn_Mode
  | kDstIn_Mode
  | kSrcOut_Mode
  | kDstOut_Mode
  | kSrcATop_Mode
  | kDstATop_Mode
  | kXor_Mode
deriving DecidableEq, Repr

/-- `SkRegion::Op`: the region-combine operator enum (external
SkRegion.h), consumed by `setCoverageSetOpXPFactory`. -/
inductive SkRegionOp where
  | kDifference_Op
  | kIntersect_Op
  | kUnion_Op
  | kXOR_Op
  | kReverseDifference_Op
  | kReplace_Op
deriving DecidableEq, Repr

/-- `const GrXPFactory*` values the excerpt can install: the
Porter-Duff factory family (`GrPorterDuffXPFactory::Create(mode)`), the
coverage set-op factory (`GrCoverageSetOpXPFactory::Create(op,
invert)`), the disable-color factory
(`GrDisableColorXPFactory::Create()`), and externally supplied custom
factories passed to `setXPFactory`.  Each `Create` call is modelled by
the constructor carrying its parameters; factories made with different
parameters are observably different objects. -/
inductive GrXPFactory where
  | porterDuff (mode : SkXfermodeMode)
  | coverageSetOp (regionOp : SkRegionOp) (invertCoverage : Bool)
  | disableColor
  | custom (id : Nat)
deriving DecidableEq, Repr

/-- `GrPipelineBuilder::DrawFace` (GrPipelineBuilder.h lines 338-344). -/
inductive DrawFace where
  | kInvalid_DrawFace
  | kBoth_DrawFace
  | kCCW_DrawFace
  | kCW_DrawFace
deriving DecidableEq, Repr

/-- `GrColor`: 32-bit color, modelled as `Nat`. -/
abbrev GrColor := Nat

/-- `GrFragmentStage`: wraps a reference-counted opaque fragment
processor; the processor is modelled by its identity. -/
structure GrFragmentStage where
  fProcessor : Nat
deriving DecidableEq, Repr

/-- Modelled from the spec: `GrSimpleTextureEffect::Create(texture,
matrix[, params])` is an external collaborator; it produces a fresh
textured-sampling processor determined by its inputs, modelled as an
injective pairing of the texture and matrix identities. -/
def GrSimpleTextureEffect.create (texture matrix : Nat) : Nat :=
  Nat.pair texture matrix

/-- Modelled from the spec: each fragment processor declares how it
transforms an input invariant-output descriptor into an output
descriptor (`constant-in → constant-out`, or varying); the excerpt
leaves the per-stage rule opaque, so it is modelled as a fixed abstract
function of the stage and the incoming descriptor. -/
def stageTransform (stage : GrFragmentStage) (input : GrColor) : GrColor :=
  (stage.fProcessor + 2 * input + 1) % 2 ^ 32

/-- Modelled from the spec: the invariant-analysis walk — start from
the seed and propagate the running known-output descriptor through each
stage of the chain in chain order. -/
def computeInvariantOutput (stages : List GrFragmentStage)
    (seed : GrColor) : GrColor :=
  stages.foldl (fun c st => stageTransform st c) seed

/-- `GrPipelineBuilder` (GrPipelineBuilder.h lines 432-446).
Reference-counted pointers (`fRenderTarget`, `fXPFactory`) are
`Option`s whose payload identity models pointer identity; the stage
arrays are lists; the two `GrProcOptInfo` slots are the invariant
descriptors they cache.  `mutable` fields are threaded explicitly
through the `const` methods that touch them. -/
structure GrPipelineBuilder where
  fRenderTarget : Option Nat
  fFlagBits : Nat
  fStencilSettings : Nat
  fDrawFace : DrawFace
  fXPFactory : Option GrXPFactory
  fColorStages : List GrFragmentStage
  fCoverageStages : List GrFragmentStage
  fClip : GrClip
  fColorProcInfo : GrColor
  fCoverageProcInfo : GrColor
  fColorProcInfoValid : Bool
  fCoverageProcInfoValid : Bool
  fColorCache : GrColor
  fCoverageCache : GrColor
deriving DecidableEq, Repr

namespace GrPipelineBuilder

/-- Modelled from the spec: `GrPipelineBuilder::GrPipelineBuilder()`
lives in the missing GrPipelineBuilder.cpp; the spec's documented
defaults are: no stages, stencil disabled, draw-face both, flags
clear, clip wide open, transfer factory unset, caches invalid. -/
def ctor : GrPipelineBuilder :=
  { fRenderTarget := none, fFlagBits := 0, fStencilSettings := 0,
    fDrawFace := .kBoth_DrawFace, fXPFactory := none,
    fColorStages := [], fCoverageStages := [], fClip := GrClip.ctor,
    fColorProcInfo := 0, fCoverageProcInfo := 0,
    fColorProcInfoValid := false, fCoverageProcInfoValid := false,
    fColorCache := 0, fCoverageCache := 0 }

/-- `numColorStages()` (line 78). -/
def numColorStages (b : GrPipelineBuilder) : Nat := b.fColorStages.length

/-- `numCoverageStages()` (line 79). -/
def numCoverageStages (b : GrPipelineBuilder) : Nat := b.fCoverageStages.length

/-- `numFragmentStages()` (line 80). -/
def numFragmentStages (b : GrPipelineBuilder) : Nat :=
  b.numColorStages + b.numCoverageStages

/-- `getXPFactory()` (lines 82-87): if the mutable factory slot is
null, install `GrPorterDuffXPFactory::Create(SkXfermode::kSrc_Mode)`;
return the held factory.  The pair is (returned pointer, builder with
its mutable slot updated). -/
def getXPFactory (b : GrPipelineBuilder) :
    GrXPFactory × GrPipelineBuilder :=
  match b.fXPFactory with
  | none =>
      let f := GrXPFactory.porterDuff .kSrc_Mode
      (f, { b with fXPFactory := some f })
  | some f => (f, b)

/-- `setXPFactory` (lines 101-104): replace the held factory (the C++
also returns the argument). -/
def setXPFactory (b : GrPipelineBuilder) (xpFactory : GrXPFactory) :
    GrPipelineBuilder :=
  { b with fXPFactory := some xpFactory }

/-- `setCoverageSetOpXPFactory` (lines 106-108). -/
def setCoverageSetOpXPFactory (b : GrPipelineBuilder)
    (regionOp : SkRegionOp) (invertCoverage : Bool) : GrPipelineBuilder :=
  { b with fXPFactory := some (.coverageSetOp regionOp invertCoverage) }

/-- `setDisableColorXPFactory` (lines 110-112). -/
def setDisableColorXPFactory (b : GrPipelineBuilder) : GrPipelineBuilder :=
  { b with fXPFactory := some .disableColor }

/-- `addColorProcessor` (lines 114-119): append a stage wrapping the
effect and clear the color cache slot's validity flag (the C++ also
returns the effect pointer). -/
def addColorProcessor (b : GrPipelineBuilder) (effect : Nat) :
    GrPipelineBuilder :=
  { b with fColorStages := b.fColorStages ++ [⟨effect⟩],
           fColorProcInfoValid := false }

/-- `addCoverageProcessor` (lines 121-126). -/
def addCoverageProcessor (b : GrPipelineBuilder) (effect : Nat) :
    GrPipelineBuilder :=
  { b with fCoverageStages := b.fCoverageStages ++ [⟨effect⟩],
           fCoverageProcInfoValid := false }

/-- `addColorTextureProcessor` (lines 131-133): delegates to
`addColorProcessor` with a `GrSimpleTextureEffect`. -/
def addColorTextureProcessor (b : GrPipelineBuilder)
    (texture matrix : Nat) : GrPipelineBuilder :=
  b.addColorProcessor (GrSimpleTextureEffect.create texture matrix)

/-- `addCoverageTextureProcessor` (lines 135-137). -/
def addCoverageTextureProcessor (b : GrPipelineBuilder)
    (texture matrix : Nat) : GrPipelineBuilder :=
  b.addCoverageProcessor (GrSimpleTextureEffect.create texture matrix)

/-- `getRenderTarget()` (line 243). -/
def getRenderTarget (b : GrPipelineBuilder) : Option Nat := b.fRenderTarget

/-- `setRenderTarget` (line 250): `SkSafeRef` accepts null. -/
def setRenderTarget (b : GrPipelineBuilder) (target : Option Nat) :
    GrPipelineBuilder :=
  { b with fRenderTarget := target }

/-- `getStencil()` (line 258). -/
def getStencil (b : GrPipelineBuilder) : Nat := b.fStencilSettings

/-- `setStencil` (line 267). -/
def setStencil (b : GrPipelineBuilder) (settings : Nat) :
    GrPipelineBuilder :=
  { b with fStencilSettings := settings }

/-- `enableState` (line 309): `fFlagBits |= stateBits`. -/
def enableState (b : GrPipelineBuilder) (stateBits : Nat) :
    GrPipelineBuilder :=
  { b with fFlagBits := b.fFlagBits ||| stateBits }

/-- `disableState` (line 316): `fFlagBits &= ~stateBits`, with the
32-bit complement written explicitly. -/
def disableState (b : GrPipelineBuilder) (stateBits : Nat) :
    GrPipelineBuilder :=
  { b with fFlagBits := b.fFlagBits &&& (stateBits ^^^ (2 ^ 32 - 1)) }

/-- `setState` (lines 324-330). -/
def setState (b : GrPipelineBuilder) (stateBits : Nat) (enable : Bool) :
    GrPipelineBuilder :=
  if enable then b.enableState stateBits else b.disableState stateBits

/-- `setDrawFace` (lines 357-360); the `SkASSERT(kInvalid_DrawFace !=
face)` precondition is debug-only. -/
def setDrawFace (b : GrPipelineBuilder) (face : DrawFace) :
    GrPipelineBuilder :=
  { b with fDrawFace := face }

/-- `getDrawFace()` (line 351). -/
def getDrawFace (b : GrPipelineBuilder) : DrawFace := b.fDrawFace

/-- `setClip` (line 389): assigns through `GrClip::operator=`. -/
def setClip (b : GrPipelineBuilder) (clip : GrClip) : GrPipelineBuilder :=
  { b with fClip := b.fClip.assign clip }

/-- Modelled from the spec: `calcColorInvariantOutput(GrColor)` lives
in the missing GrPipelineBuilder.cpp.  Per the spec: if the slot is
valid and its stored seed equals the seed, return unchanged; otherwise
walk the color chain from the seed, store the result, mark the slot
valid and remember the seed. -/
def calcColorInvariantOutput (b : GrPipelineBuilder) (color : GrColor) :
    GrPipelineBuilder :=
  if b.fColorProcInfoValid && b.fColorCache == color then b
  else
    { b with fColorProcInfo := computeInvariantOutput b.fColorStages color,
             fColorProcInfoValid := true, fColorCache := color }

/-- Modelled from the spec: `calcCoverageInvariantOutput(GrColor)`,
symmetric to the color slot. -/
def calcCoverageInvariantOutput (b : GrPipelineBuilder) (coverage : GrColor) :
    GrPipelineBuilder :=
  if b.fCoverageProcInfoValid && b.fCoverageCache == coverage then b
  else
    { b with
        fCoverageProcInfo := computeInvariantOutput b.fCoverageStages coverage,
        fCoverageProcInfoValid := true, fCoverageCache := coverage }

/-- `colorProcInfo` (lines 369-372): run the maintain-cache operation,
then read the slot.  The pair is (returned descriptor, builder with its
mutable slots updated). -/
def colorProcInfo (b : GrPipelineBuilder) (seed : GrColor) :
    GrColor × GrPipelineBuilder :=
  let b' := b.calcColorInvariantOutput seed
  (b'.fColorProcInfo, b')

/-- `coverageProcInfo` (lines 374-377). -/
def coverageProcInfo (b : GrPipelineBuilder) (seed : GrColor) :
    GrColor × GrPipelineBuilder :=
  let b' := b.calcCoverageInvariantOutput seed
  (b'.fCoverageProcInfo, b')

/-- Modelled from the spec: `GrPipelineBuilder::operator=` lives in the
missing GrPipelineBuilder.cpp.  Per the spec: release owned resources,
value-copy stencil, flags, draw-face and clip, value-copy both stage
chains, share (reference-count) the render target and transfer-factory
references, and treat both cache slots as invalidated rather than
copied. -/
def assign (b that : GrPipelineBuilder) : GrPipelineBuilder :=
  { fRenderTarget := that.fRenderTarget,
    fFlagBits := that.fFlagBits,
    fStencilSettings := that.fStencilSettings,
    fDrawFace := that.fDrawFace,
    fXPFactory := that.fXPFactory,
    fColorStages := that.fColorStages,
    fCoverageStages := that.fCoverageStages,
    fClip := b.fClip.assign that.fClip,
    fColorProcInfo := b.fColorProcInfo,
    fCoverageProcInfo := b.fCoverageProcInfo,
    fColorProcInfoValid := false,
    fCoverageProcInfoValid := false,
    fColorCache := b.fColorCache,
    fCoverageCache := b.fCoverageCache }

/-- `GrPipelineBuilder(const GrPipelineBuilder&)` (lines 35-38):
delegates to `operator=` on a default-initialized object. -/
def copyCtor (that : GrPipelineBuilder) : GrPipelineBuilder :=
  ctor.assign that

end GrPipelineBuilder

/-- `GrPipelineBuilder::AutoRestoreEffects` (GrPipelineBuilder.h lines
160-184): the captured per-chain counts plus whether the guard is
currently bound.  The embedding models the guard together with the one
builder it can reference, so the bound pointer collapses to a flag. -/
structure AutoRestoreEffects where
  fBound : Bool
  fColorEffectCnt : Nat
  fCoverageEffectCnt : Nat
deriving DecidableEq, Repr

namespace AutoRestoreEffects

/-- `AutoRestoreEffects()` (lines 162-165): unbound, zero counts. -/
def ctor : AutoRestoreEffects :=
  { fBound := false, fColorEffectCnt := 0, fCoverageEffectCnt := 0 }

/-- Modelled from the spec: `AutoRestoreEffects::set(ds)` lives in the
missing GrPipelineBuilder.cpp.  Per the spec: if bound, truncate the
previous builder's two chains back to the captured counts (dropping the
stages appended during the scope); then, when `ds` is non-null, capture
fresh counts from it, else become unbound.  Destruction is `set(NULL)`.
`bindBuilder = true` models `set(&builder)` for the one builder in
scope; `bindBuilder = false` models `set(NULL)` (or rebinding to a
different builder, which this builder observes as a release). -/
def set (st : GrPipelineBuilder × AutoRestoreEffects) (bindBuilder : Bool) :
    GrPipelineBuilder × AutoRestoreEffects :=
  let b := st.1
  let are := st.2
  let b' :=
    if are.fBound then
      { b with fColorStages := b.fColorStages.take are.fColorEffectCnt,
               fCoverageStages := b.fCoverageStages.take are.fCoverageEffectCnt }
    else b
  if bindBuilder then
    (b', { fBound := true,
           fColorEffectCnt := b'.numColorStages,
           fCoverageEffectCnt := b'.numCoverageStages })
  else
    (b', { are with fBound := false })

end AutoRestoreEffects

/-- The builder operations a caller can interleave between guard events:
stage appends (direct and the texture-processor convenience overloads)
and invariant-analysis queries. -/
inductive PBOp where
  | addColor (processor : Nat)
  | addCoverage (processor : Nat)
  | addColorTexture (texture matrix : Nat)
  | addCoverageTexture (texture matrix : Nat)
  | queryColor (seed : GrColor)
  | queryCoverage (seed : GrColor)
deriving DecidableEq, Repr

/-- Apply one operation to the builder. -/
def PBOp.apply (op : PBOp) (b : GrPipelineBuilder) : GrPipelineBuilder :=
  match op with
  | .addColor p => b.addColorProcessor p
  | .addCoverage p => b.addCoverageProcessor p
  | .addColorTexture t m => b.addColorTextureProcessor t m
  | .addCoverageTexture t m => b.addCoverageTextureProcessor t m
  | .queryColor seed => b.calcColorInvariantOutput seed
  | .queryCoverage seed => b.calcCoverageInvariantOutput seed

/-- Run a sequence of builder operations in order. -/
def runOps (ops : List PBOp) (b : GrPipelineBuilder) : GrPipelineBuilder :=
  ops.foldl (fun acc op => op.apply acc) b

/-- `SkImageInfo`: opaque image-description record. -/
abbrev SkImageInfo := Nat

/-- `SkImageGenerator`: the excerpt's `Install` consumes only
`getInfo(&info)` — success with an info, or failure. -/
structure SkImageGenerator where
  getInfoResult : Option SkImageInfo
deriving DecidableEq, Repr

/-- `SkImageGenerator::Result` values distinguished by
`onNewLockPixels`'s switch: the two tolerated results and the
error results its `default:` arm catches. -/
inductive GenResult where
  | kSuccess
  | kIncompleteInput
  | kInvalidConversion
  | kInvalidScale
  | kInvalidInput
deriving DecidableEq, Repr

/-- `SkCachingPixelRef` (SkCachingPixelRef.cpp constructor, lines
28-36): wraps the generator with the image info and row bytes;
`fErrorInDecoding` starts false. -/
structure SkCachingPixelRef where
  fInfo : SkImageInfo
  fImageGenerator : SkImageGenerator
  fErrorInDecoding : Bool
  fRowBytes : Nat
deriving DecidableEq, Repr

/-- `SkBitmap`: the excerpt uses `setInfo` (fallible, external
validation modelled by the `setInfoOk` oracle), `rowBytes()` and
`setPixelRef`. -/
structure SkBitmap where
  setInfoOk : SkImageInfo → Bool
  fInfo : Option SkImageInfo
  fPixelRef : Option SkCachingPixelRef
  fRowBytes : Nat

/-- `SkBitmap::setInfo`: fails (returns false, modelled `none`) when
the external validation rejects the info. -/
def SkBitmap.setInfo (b : SkBitmap) (info : SkImageInfo) : Option SkBitmap :=
  if b.setInfoOk info then some { b with fInfo := some info } else none

/-- Outcome of `SkCachingPixelRef::Install`: the returned bool, the
destination bitmap afterwards, and whether `SkDELETE(generator)` ran. -/
structure InstallResult where
  ok : Bool
  dst : SkBitmap
  generatorDeleted : Bool

/-- `SkCachingPixelRef::Install` (SkCachingPixelRef.cpp lines 12-26):
fail (deleting the generator, leaving `dst` untouched) when the
generator is null, its `getInfo` fails, or `dst->setInfo` fails;
otherwise construct the caching pixel ref over the generator with
`dst->rowBytes()` and install it on `dst`. -/
def SkCachingPixelRef.Install (generator : Option SkImageGenerator)
    (dst : SkBitmap) : InstallResult :=
  match generator with
  | none => ⟨false, dst, true⟩
  | some g =>
      match g.getInfoResult with
      | none => ⟨false, dst, true⟩
      | some info =>
          match dst.setInfo info with
          | none => ⟨false, dst, true⟩
          | some dst1 =>
              let ref : SkCachingPixelRef :=
                { fInfo := info, fImageGenerator := g,
                  fErrorInDecoding := false, fRowBytes := dst1.fRowBytes }
              ⟨true, { dst1 with fPixelRef := some ref }, false⟩

/-- The per-call environment `onNewLockPixels` observes: whether
`SkBitmapCache::Find` hits, whether `tryAllocPixels` succeeds, and the
generator's `getPixels` result. -/
structure LockEnv where
  cacheFind : Bool
  allocOk : Bool
  genResult : GenResult
deriving DecidableEq, Repr

/-- Outcome of one `onNewLockPixels` call: the returned bool, the pixel
ref's state afterwards, and instrumentation recording whether the call
attempted a pixel allocation and whether it invoked the generator. -/
structure LockOutcome where
  ok : Bool
  state : SkCachingPixelRef
  allocAttempted : Bool
  generatorInvoked : Bool
deriving DecidableEq, Repr

/-- The `switch (result)` of `onNewLockPixels` (lines 57-64): tolerated
results fall through, every other result is an error. -/
def GenResult.isDecodeError (r : GenResult) : Bool :=
  match r with
  | .kSuccess => false
  | .kIncompleteInput => false
  | _ => true

/-- `SkCachingPixelRef::onNewLockPixels` (SkCachingPixelRef.cpp lines
42-77): bail out immediately when `fErrorInDecoding` is already set; on
a cache hit succeed without decoding; otherwise attempt allocation
(setting the sticky error flag on failure) and invoke the generator
(setting the sticky error flag on any result the switch's default arm
catches). -/
def SkCachingPixelRef.onNewLockPixels (s : SkCachingPixelRef)
    (env : LockEnv) : LockOutcome :=
  if s.fErrorInDecoding then
    ⟨false, s, false, false⟩
  else if env.cacheFind then
    ⟨true, s, false, false⟩
  else if !env.allocOk then
    ⟨false, { s with fErrorInDecoding := true }, true, false⟩
  else if env.genResult.isDecodeError then
    ⟨false, { s with fErrorInDecoding := true }, true, true⟩
  else
    ⟨true, s, true, true⟩

/-- Run a sequence of `onNewLockPixels` calls, collecting the outcome
of each. -/
def runLocks (s : SkCachingPixelRef) (envs : List LockEnv) :
    List LockOutcome :=
  match envs with
  | [] => []
  | e :: es =>
      let o := s.onNewLockPixels e
      o :: runLocks o.state es

section GrClipTheorems

/-- Characterization of `GrClip::operator==`: tags must agree, rect
variants compare bounds, stack variants compare origin and the stack
pointer/contents (null matches only null). -/
lemma grClipBeqChar (a b : GrClip) :
    a.beq b = true ↔
      a.fClipType = b.fClipType ∧
      (a.fClipType = ClipType.kIRect_ClipType → a.fIRect = b.fIRect) ∧
      (a.fClipType = ClipType.kClipStack_ClipType →
        a.fOrigin = b.fOrigin ∧ a.fStack = b.fStack) := by
  unfold GrClip.beq
  cases hA : a.fClipType <;> cases hB : b.fClipType <;>
    cases hS : a.fStack <;> cases hT : b.fStack <;>
      simp [hA, hB, hS, hT]

/-- C6: `ClipDescriptor` equality is structural and an equivalence
relation: reflexive, symmetric, transitive; different variant tags are
unequal; wide-open pairs always equal; rect pairs equal iff bounds
equal; stack pairs equal iff origins equal and the regions are both
null or both non-null with equal contents. -/
theorem grClip_equality_spec :
    (∀ a : GrClip, a.beq a = true) ∧
    (∀ a b : GrClip, a.beq b = b.beq a) ∧
    (∀ a b c : GrClip, a.beq b = true → b.beq c = true → a.beq c = true) ∧
    (∀ a b : GrClip, a.fClipType ≠ b.fClipType → a.beq b = false) ∧
    (∀ a b : GrClip, a.fClipType = ClipType.kWideOpen_ClipType →
       b.fClipType = ClipType.kWideOpen_ClipType → a.beq b = true) ∧
    (∀ a b : GrClip, a.fClipType = ClipType.kIRect_ClipType →
       b.fClipType = ClipType.kIRect_ClipType →
       (a.beq b = true ↔ a.fIRect = b.fIRect)) ∧
    (∀ a b : GrClip, a.fClipType = ClipType.kClipStack_ClipType →
       b.fClipType = ClipType.kClipStack_ClipType →
       (a.beq b = true ↔ a.fOrigin = b.fOrigin ∧
          ((a.fStack = none ∧ b.fStack = none) ∨
           (∃ s, a.fStack = some s ∧ b.fStack = some s)))) := by
  refine ⟨?_, ?_, ?_, ?_, ?_, ?_, ?_⟩
  · intro a
    simp [grClipBeqChar]
  · intro a b
    by_cases h : a.beq b = true
    · have h' := (grClipBeqChar a b).1 h
      have : b.beq a = true := by
        rw [grClipBeqChar]
        refine ⟨h'.1.symm, ?_, ?_⟩
        · intro hb
          exact (h'.2.1 (h'.1.trans hb)).symm
        · intro hb
          obtain ⟨h1, h2⟩ := h'.2.2 (h'.1.trans hb)
          exact ⟨h1.symm, h2.symm⟩
      rw [h, this]
    · have h2 : ¬ b.beq a = true := by
        intro hba
        have h' := (grClipBeqChar b a).1 hba
        apply h
        rw [grClipBeqChar]
        refine ⟨h'.1.symm, ?_, ?_⟩
        · intro hb
          exact (h'.2.1 (h'.1.trans hb)).symm
        · intro hb
          obtain ⟨h1, h2⟩ := h'.2.2 (h'.1.trans hb)
          exact ⟨h1.symm, h2.symm⟩
      simp only [Bool.not_eq_true] at h h2
      rw [h, h2]
  · intro a b c hab hbc
    have h1 := (grClipBeqChar a b).1 hab
    have h2 := (grClipBeqChar b c).1 hbc
    rw [grClipBeqChar]
    refine ⟨h1.1.trans h2.1, ?_, ?_⟩
    · intro ha
      exact (h1.2.1 ha).trans (h2.2.1 (h1.1.symm.trans ha))
    · intro ha
      obtain ⟨o1, s1⟩ := h1.2.2 ha
      obtain ⟨o2, s2⟩ := h2.2.2 (h1.1.symm.trans ha)
      exact ⟨o1.trans o2, s1.trans s2⟩
  · intro a b hne
    by_contra h
    simp only [Bool.not_eq_false] at h
    exact hne ((grClipBeqChar a b).1 h).1
  · intro a b ha hb
    rw [grClipBeqChar]
    refine ⟨ha.trans hb.symm, ?_, ?_⟩ <;> intro hx <;> simp_all
  · intro a b ha hb
    rw [grClipBeqChar]
    constructor
    · intro h
      exact h.2.1 ha
    · intro h
      refine ⟨ha.trans hb.symm, fun _ => h, fun hx => ?_⟩
      rw [ha] at hx
      cases hx
  · intro a b ha hb
    rw [grClipBeqChar]
    constructor
    · intro h
      obtain ⟨ho, hs⟩ := h.2.2 ha
      refine ⟨ho, ?_⟩
      cases hA : a.fStack with
      | none => left; exact ⟨rfl, hs.symm.trans hA⟩
      | some s => right; exact ⟨s, rfl, hs.symm.trans hA⟩
    · intro h
      refine ⟨ha.trans hb.symm, fun hx => ?_, fun _ => ⟨h.1, ?_⟩⟩
      · rw [ha] at hx; cases hx
      · rcases h.2 with ⟨h1, h2⟩ | ⟨s, h1, h2⟩
        · rw [h1, h2]
        · rw [h1, h2]

/-- For C6's witness: two concrete descriptors with different variant
tags compare unequal, and a rect pair with equal bounds compares
equal. -/
theorem grClip_equality_spec_witness :
    GrClip.beq (GrClip.ctorIRect ⟨0, 0, 4, 4⟩) GrClip.ctor = false ∧
    GrClip.beq (GrClip.ctorIRect ⟨0, 0, 4, 4⟩) (GrClip.ctorIRect ⟨0, 0, 4, 4⟩)
      = true ∧
    GrClip.beq GrClip.ctor { GrClip.ctor with fIRect := ⟨9, 9, 9, 9⟩ } = true :=
  ⟨grClip_equality_spec.2.2.2.1 (GrClip.ctorIRect ⟨0, 0, 4, 4⟩) GrClip.ctor
      (by decide),
   (grClip_equality_spec.2.2.2.2.2.1 (GrClip.ctorIRect ⟨0, 0, 4, 4⟩)
      (GrClip.ctorIRect ⟨0, 0, 4, 4⟩) (by decide) (by decide)).2 (by decide),
   grClip_equality_spec.2.2.2.2.1 GrClip.ctor
      { GrClip.ctor with fIRect := ⟨9, 9, 9, 9⟩ } (by decide) (by decide)⟩

end GrClipTheorems

section GrClipMore

/-- C2: `setClipStack` from a wide-open region collapses to the
wide-open variant with zero origin, equal (under `operator==`) to a
default-constructed clip — and the same holds after assigning the
result into any other clip; a stack variant holding the region is
stored only when the region is not wide open. -/
theorem grClip_setClipStack_collapses (c d : GrClip) (s : SkClipStack)
    (origin : Option SkIPoint) :
    (s.isWideOpen = true →
       (c.setClipStack s origin).fClipType = ClipType.kWideOpen_ClipType ∧
       (c.setClipStack s origin).fOrigin = SkIPoint.zero ∧
       (c.setClipStack s origin).beq GrClip.ctor = true ∧
       (d.assign (c.setClipStack s origin)).fClipType
          = ClipType.kWideOpen_ClipType ∧
       (d.assign (c.setClipStack s origin)).beq GrClip.ctor = true) ∧
    (s.isWideOpen = false →
       (c.setClipStack s origin).fClipType = ClipType.kClipStack_ClipType ∧
       (c.setClipStack s origin).fStack = some s) := by
  constructor
  · intro hw
    refine ⟨?_, ?_, ?_, ?_, ?_⟩ <;>
      simp [GrClip.setClipStack, GrClip.reset, GrClip.assign, GrClip.beq,
            GrClip.ctor, hw]
  · intro hw
    constructor <;> simp [GrClip.setClipStack, GrClip.reset, hw]

/-- Witness for C2 at concrete inputs: a wide-open stack collapses and
compares equal to the default clip; a non-wide-open stack is stored. -/
theorem grClip_setClipStack_collapses_witness :
    ((GrClip.ctorIRect ⟨1, 1, 5, 5⟩).setClipStack ⟨7, true⟩
        (some ⟨3, 4⟩)).fClipType = ClipType.kWideOpen_ClipType ∧
    ((GrClip.ctorIRect ⟨1, 1, 5, 5⟩).setClipStack ⟨7, true⟩
        (some ⟨3, 4⟩)).fOrigin = SkIPoint.zero ∧
    ((GrClip.ctorIRect ⟨1, 1, 5, 5⟩).setClipStack ⟨7, true⟩
        (some ⟨3, 4⟩)).beq GrClip.ctor = true ∧
    (GrClip.ctor.assign ((GrClip.ctorIRect ⟨1, 1, 5, 5⟩).setClipStack ⟨7, true⟩
        (some ⟨3, 4⟩))).fClipType = ClipType.kWideOpen_ClipType ∧
    (GrClip.ctor.assign ((GrClip.ctorIRect ⟨1, 1, 5, 5⟩).setClipStack ⟨7, true⟩
        (some ⟨3, 4⟩))).beq GrClip.ctor = true ∧
    ((GrClip.ctorIRect ⟨1, 1, 5, 5⟩).setClipStack ⟨7, false⟩
        (some ⟨3, 4⟩)).fClipType = ClipType.kClipStack_ClipType ∧
    ((GrClip.ctorIRect ⟨1, 1, 5, 5⟩).setClipStack ⟨7, false⟩
        (some ⟨3, 4⟩)).fStack = some ⟨7, false⟩ := by
  have h1 := (grClip_setClipStack_collapses (GrClip.ctorIRect ⟨1, 1, 5, 5⟩)
      GrClip.ctor ⟨7, true⟩ (some ⟨3, 4⟩)).1 (by decide)
  have h2 := (grClip_setClipStack_collapses (GrClip.ctorIRect ⟨1, 1, 5, 5⟩)
      GrClip.ctor ⟨7, false⟩ (some ⟨3, 4⟩)).2 (by decide)
  exact ⟨h1.1, h1.2.1, h1.2.2.1, h1.2.2.2.1, h1.2.2.2.2, h2.1, h2.2⟩

/-- C7: `isWideOpen()` is true exactly on the wide-open variant or a
stack variant whose region reports wide open; the rectangle overloads
(integer and scalar) additionally accept a rect variant whose stored
rectangle contains the candidate. -/
theorem grClip_isWideOpen_spec (c : GrClip) :
    (c.isWideOpen = true ↔
       c.fClipType = ClipType.kWideOpen_ClipType ∨
       (c.fClipType = ClipType.kClipStack_ClipType ∧
        c.stackWideOpen = true)) ∧
    (∀ r : SkIRect, c.isWideOpenI r = true ↔
       c.fClipType = ClipType.kWideOpen_ClipType ∨
       (c.fClipType = ClipType.kClipStack_ClipType ∧
        c.stackWideOpen = true) ∨
       (c.fClipType = ClipType.kIRect_ClipType ∧
        c.fIRect.contains r = true)) ∧
    (∀ r : SkRect, c.isWideOpenR r = true ↔
       c.fClipType = ClipType.kWideOpen_ClipType ∨
       (c.fClipType = ClipType.kClipStack_ClipType ∧
        c.stackWideOpen = true) ∨
       (c.fClipType = ClipType.kIRect_ClipType ∧
        c.fIRect.containsR r = true)) := by
  refine ⟨?_, fun r => ?_, fun r => ?_⟩ <;>
    simp [GrClip.isWideOpen, GrClip.isWideOpenI, GrClip.isWideOpenR, or_assoc]

end GrClipMore

section BuilderTheorems

/-- The "simple source-over" transfer factory named by the spec,
written from the spec's words for comparison: the Porter-Duff factory
for the source-over blend mode. -/
def simpleSrcOverXPFactory : GrXPFactory :=
  .porterDuff .kSrcOver_Mode

/-- C1 counterexample: on a never-configured builder the first
`getXPFactory()` materializes `GrPorterDuffXPFactory::Create(
SkXfermode::kSrc_Mode)` — the source (kSrc) factory, which is not the
"simple source-over" factory the claim names. -/
theorem grPB_getXPFactory_counterexample :
    GrPipelineBuilder.ctor.getXPFactory.1
        = GrXPFactory.porterDuff SkXfermodeMode.kSrc_Mode ∧
    GrPipelineBuilder.ctor.getXPFactory.1 ≠ simpleSrcOverXPFactory := by
  constructor
  · rfl
  · intro h
    cases h

/-- C1 (amended): on a builder whose transfer-factory slot has never
been set, the first `getXPFactory()` returns the non-null fixed default
Porter-Duff factory for the source (`kSrc`) blend mode, caches it in
the mutable slot, and every subsequent call returns that identical
cached factory with no new creation; on a builder whose slot holds a
factory, `getXPFactory()` returns it unchanged. -/
theorem grPB_getXPFactory_default_cached (b : GrPipelineBuilder) :
    (b.fXPFactory = none →
       b.getXPFactory.1 = GrXPFactory.porterDuff SkXfermodeMode.kSrc_Mode ∧
       b.getXPFactory.2.fXPFactory = some b.getXPFactory.1 ∧
       b.getXPFactory.2.getXPFactory = (b.getXPFactory.1, b.getXPFactory.2)) ∧
    (∀ f, b.fXPFactory = some f → b.getXPFactory = (f, b)) := by
  constructor
  · intro h
    simp [GrPipelineBuilder.getXPFactory, h]
  · intro f h
    simp [GrPipelineBuilder.getXPFactory, h]

/-- Witness for C1 at the default-constructed builder: the default
factory materializes on first read and the second read returns the
identical cached value without changing the builder. -/
theorem grPB_getXPFactory_default_cached_witness :
    GrPipelineBuilder.ctor.getXPFactory.1
        = GrXPFactory.porterDuff SkXfermodeMode.kSrc_Mode ∧
    GrPipelineBuilder.ctor.getXPFactory.2.getXPFactory
        = (GrPipelineBuilder.ctor.getXPFactory.1,
           GrPipelineBuilder.ctor.getXPFactory.2) :=
  ⟨((grPB_getXPFactory_default_cached GrPipelineBuilder.ctor).1 rfl).1,
   ((grPB_getXPFactory_default_cached GrPipelineBuilder.ctor).1 rfl).2.2⟩

/-- C8: for every 32-bit mask — including masks with bits outside the
defined `StateBits` values — `enableState` ORs the mask in,
`disableState` ANDs its 32-bit complement in (shown bit by bit), and
`setState` is exactly `enableState` when enabling and exactly
`disableState` when disabling; the operations are total, with no
validation or rejection of unrecognized bits. -/
theorem grPB_stateFlags_spec (b : GrPipelineBuilder) (bits : Nat)
    (hb : b.fFlagBits < 2 ^ 32) (hbits : bits < 2 ^ 32) :
    (b.enableState bits).fFlagBits = b.fFlagBits ||| bits ∧
    (b.disableState bits).fFlagBits
        = b.fFlagBits &&& (bits ^^^ (2 ^ 32 - 1)) ∧
    (∀ i, ((b.enableState bits).fFlagBits).testBit i
        = (b.fFlagBits.testBit i || bits.testBit i)) ∧
    (∀ i, ((b.disableState bits).fFlagBits).testBit i
        = (b.fFlagBits.testBit i && !(bits.testBit i))) ∧
    b.setState bits true = b.enableState bits ∧
    b.setState bits false = b.disableState bits := by
  refine ⟨rfl, rfl, ?_, ?_, rfl, rfl⟩
  · intro i
    simp [GrPipelineBuilder.enableState]
  · intro i
    simp only [GrPipelineBuilder.disableState, Nat.testBit_and,
      Nat.testBit_xor, Nat.testBit_two_pow_sub_one]
    by_cases hi : i < 32
    · simp [hi]
    · have h32 : (2 : Nat) ^ 32 ≤ 2 ^ i :=
        Nat.pow_le_pow_right (by norm_num) (by omega)
      rw [Nat.testBit_lt_two_pow (lt_of_lt_of_le hb h32),
          Nat.testBit_lt_two_pow (lt_of_lt_of_le hbits h32)]
      simp [hi]

/-- Witness for C8 at the default builder and the unrecognized mask
`0x04` (outside the defined `StateBits`), accepted silently. -/
theorem grPB_stateFlags_spec_witness :
    GrPipelineBuilder.ctor.fFlagBits < 2 ^ 32 ∧ (4 : Nat) < 2 ^ 32 ∧
    (GrPipelineBuilder.ctor.enableState 4).fFlagBits
        = GrPipelineBuilder.ctor.fFlagBits ||| 4 ∧
    GrPipelineBuilder.ctor.setState 4 true
        = GrPipelineBuilder.ctor.enableState 4 :=
  ⟨by norm_num [GrPipelineBuilder.ctor], by norm_num,
   (grPB_stateFlags_spec GrPipelineBuilder.ctor 4
      (by norm_num [GrPipelineBuilder.ctor]) (by norm_num)).1,
   (grPB_stateFlags_spec GrPipelineBuilder.ctor 4
      (by norm_num [GrPipelineBuilder.ctor]) (by norm_num)).2.2.2.2.1⟩

/-- C5: after copy-assignment `B := A`, the stencil settings, flag
bits, draw-face mode, clip descriptor (under `operator==`) and the two
stage counts equal `A`'s; the render-target and transfer-factory
references are the identical shared resources; and both
invariant-analysis cache slots are invalidated rather than copied. -/
theorem grPB_assign_spec (b a : GrPipelineBuilder) :
    (b.assign a).fStencilSettings = a.fStencilSettings ∧
    (b.assign a).fFlagBits = a.fFlagBits ∧
    (b.assign a).fDrawFace = a.fDrawFace ∧
    (b.assign a).fClip.beq a.fClip = true ∧
    (b.assign a).numColorStages = a.numColorStages ∧
    (b.assign a).numCoverageStages = a.numCoverageStages ∧
    (b.assign a).fRenderTarget = a.fRenderTarget ∧
    (b.assign a).fXPFactory = a.fXPFactory ∧
    (b.assign a).fColorProcInfoValid = false ∧
    (b.assign a).fCoverageProcInfoValid = false := by
  refine ⟨rfl, rfl, rfl, ?_, rfl, rfl, rfl, rfl, rfl, rfl⟩
  show (b.fClip.assign a.fClip).beq a.fClip = true
  rw [grClipBeqChar]
  unfold GrClip.assign
  cases h : a.fClip.fClipType <;>
    simp [h, GrClip.reset]

end BuilderTheorems

section CacheCoherence

/-- Each builder operation leaves the two stage chains as the old
chains with some (possibly empty) appended suffix: stages are only ever
appended, never removed or reordered. -/
lemma PBOp.apply_stages (op : PBOp) (b : GrPipelineBuilder) :
    ∃ sc sv, (op.apply b).fColorStages = b.fColorStages ++ sc ∧
             (op.apply b).fCoverageStages = b.fCoverageStages ++ sv := by
  cases op with
  | addColor p =>
      refine ⟨[⟨p⟩], [], rfl, ?_⟩
      simp [PBOp.apply, GrPipelineBuilder.addColorProcessor]
  | addCoverage p =>
      refine ⟨[], [⟨p⟩], ?_, rfl⟩
      simp [PBOp.apply, GrPipelineBuilder.addCoverageProcessor]
  | addColorTexture t m =>
      refine ⟨[⟨GrSimpleTextureEffect.create t m⟩], [], rfl, ?_⟩
      simp [PBOp.apply, GrPipelineBuilder.addColorTextureProcessor,
            GrPipelineBuilder.addColorProcessor]
  | addCoverageTexture t m =>
      refine ⟨[], [⟨GrSimpleTextureEffect.create t m⟩], ?_, rfl⟩
      simp [PBOp.apply, GrPipelineBuilder.addCoverageTextureProcessor,
            GrPipelineBuilder.addCoverageProcessor]
  | queryColor seed =>
      refine ⟨[], [], ?_, ?_⟩ <;>
        · simp only [PBOp.apply, GrPipelineBuilder.calcColorInvariantOutput]
          split <;> simp
  | queryCoverage seed =>
      refine ⟨[], [], ?_, ?_⟩ <;>
        · simp only [PBOp.apply, GrPipelineBuilder.calcCoverageInvariantOutput]
          split <;> simp

/-- Running a sequence of builder operations only appends to the two
stage chains. -/
lemma runOps_stages (ops : List PBOp) (b : GrPipelineBuilder) :
    ∃ sc sv, (runOps ops b).fColorStages = b.fColorStages ++ sc ∧
             (runOps ops b).fCoverageStages = b.fCoverageStages ++ sv := by
  induction ops generalizing b with
  | nil => exact ⟨[], [], by simp [runOps], by simp [runOps]⟩
  | cons op ops ih =>
      obtain ⟨sc, sv, hc, hv⟩ := PBOp.apply_stages op b
      obtain ⟨tc, tv, htc, htv⟩ := ih (op.apply b)
      refine ⟨sc ++ tc, sv ++ tv, ?_, ?_⟩
      · show (runOps ops (op.apply b)).fColorStages = _
        rw [htc, hc, List.append_assoc]
      · show (runOps ops (op.apply b)).fCoverageStages = _
        rw [htv, hv, List.append_assoc]

/-- Cache coherence of one builder state: a valid slot holds exactly
the invariant-analysis walk of the current chain at the remembered
seed. -/
abbrev cacheCoherent (b : GrPipelineBuilder) : Prop :=
  (b.fColorProcInfoValid = true →
     b.fColorProcInfo = computeInvariantOutput b.fColorStages b.fColorCache) ∧
  (b.fCoverageProcInfoValid = true →
     b.fCoverageProcInfo
       = computeInvariantOutput b.fCoverageStages b.fCoverageCache)

/-- Every builder operation preserves cache coherence: appends
invalidate the matching slot, and the maintain-cache operations refill
a slot only with the walk of the current chain. -/
lemma PBOp.apply_coherent (op : PBOp) (b : GrPipelineBuilder)
    (h : cacheCoherent b) : cacheCoherent (op.apply b) := by
  obtain ⟨hc, hv⟩ := h
  cases op with
  | addColor p =>
      exact ⟨(fun hx => nomatch hx), hv⟩
  | addCoverage p =>
      exact ⟨hc, fun hx => nomatch hx⟩
  | addColorTexture t m =>
      exact ⟨(fun hx => nomatch hx), hv⟩
  | addCoverageTexture t m =>
      exact ⟨hc, fun hx => nomatch hx⟩
  | queryColor seed =>
      show cacheCoherent (b.calcColorInvariantOutput seed)
      unfold GrPipelineBuilder.calcColorInvariantOutput
      split
      · exact ⟨hc, hv⟩
      · exact ⟨fun _ => rfl, hv⟩
  | queryCoverage seed =>
      show cacheCoherent (b.calcCoverageInvariantOutput seed)
      unfold GrPipelineBuilder.calcCoverageInvariantOutput
      split
      · exact ⟨hc, hv⟩
      · exact ⟨hc, fun _ => rfl⟩

/-- Running any operation sequence preserves cache coherence. -/
lemma runOps_coherent (ops : List PBOp) (b : GrPipelineBuilder)
    (h : cacheCoherent b) : cacheCoherent (runOps ops b) := by
  induction ops generalizing b with
  | nil => exact h
  | cons op ops ih => exact ih (op.apply b) (PBOp.apply_coherent op b h)

/-- On a coherent builder, the color analysis accessor returns exactly
the walk of the current color chain at the requested seed. -/
lemma colorProcInfo_of_coherent (b : GrPipelineBuilder) (seed : GrColor)
    (h : cacheCoherent b) :
    (b.colorProcInfo seed).1
      = computeInvariantOutput b.fColorStages seed := by
  show (b.calcColorInvariantOutput seed).fColorProcInfo = _
  unfold GrPipelineBuilder.calcColorInvariantOutput
  split
  · next hcond =>
      simp only [Bool.and_eq_true, beq_iff_eq] at hcond
      rw [h.1 hcond.1, hcond.2]
  · rfl

/-- On a coherent builder, the coverage analysis accessor returns
exactly the walk of the current coverage chain at the requested seed. -/
lemma coverageProcInfo_of_coherent (b : GrPipelineBuilder) (seed : GrColor)
    (h : cacheCoherent b) :
    (b.coverageProcInfo seed).1
      = computeInvariantOutput b.fCoverageStages seed := by
  show (b.calcCoverageInvariantOutput seed).fCoverageProcInfo = _
  unfold GrPipelineBuilder.calcCoverageInvariantOutput
  split
  · next hcond =>
      simp only [Bool.and_eq_true, beq_iff_eq] at hcond
      rw [h.2 hcond.1, hcond.2]
  · rfl

/-- C3: every append — `addColorProcessor`, `addCoverageProcessor` and
the texture-processor convenience overloads that delegate to them —
clears the matching cache slot's validity flag; consequently, on any
builder reachable from the default constructor by any sequence of
appends and analysis queries, each analysis query returns exactly the
invariant-analysis walk of the stage chain present at that moment
(both before and after an append), so the cache never serves a result
computed under a different stage set than the one currently present. -/
theorem grPB_append_invalidates_cache :
    (∀ (b : GrPipelineBuilder) (p : Nat),
       (b.addColorProcessor p).fColorProcInfoValid = false) ∧
    (∀ (b : GrPipelineBuilder) (p : Nat),
       (b.addCoverageProcessor p).fCoverageProcInfoValid = false) ∧
    (∀ (b : GrPipelineBuilder) (t m : Nat),
       (b.addColorTextureProcessor t m).fColorProcInfoValid = false) ∧
    (∀ (b : GrPipelineBuilder) (t m : Nat),
       (b.addCoverageTextureProcessor t m).fCoverageProcInfoValid = false) ∧
    (∀ (ops : List PBOp) (seed : GrColor),
       ((runOps ops GrPipelineBuilder.ctor).colorProcInfo seed).1
         = computeInvariantOutput
             (runOps ops GrPipelineBuilder.ctor).fColorStages seed ∧
       ((runOps ops GrPipelineBuilder.ctor).coverageProcInfo seed).1
         = computeInvariantOutput
             (runOps ops GrPipelineBuilder.ctor).fCoverageStages seed) ∧
    (∀ (ops : List PBOp) (seed : GrColor) (p : Nat),
       (((runOps ops GrPipelineBuilder.ctor).addColorProcessor p).colorProcInfo
           seed).1
         = computeInvariantOutput
             ((runOps ops GrPipelineBuilder.ctor).fColorStages ++ [⟨p⟩])
             seed ∧
       (((runOps ops GrPipelineBuilder.ctor).addCoverageProcessor
           p).coverageProcInfo seed).1
         = computeInvariantOutput
             ((runOps ops GrPipelineBuilder.ctor).fCoverageStages ++ [⟨p⟩])
             seed) := by
  have hctor : cacheCoherent GrPipelineBuilder.ctor :=
    ⟨(fun hx => nomatch hx), (fun hx => nomatch hx)⟩
  refine ⟨fun _ _ => rfl, fun _ _ => rfl, fun _ _ _ => rfl, fun _ _ _ => rfl,
          ?_, ?_⟩
  · intro ops seed
    have h := runOps_coherent ops GrPipelineBuilder.ctor hctor
    exact ⟨colorProcInfo_of_coherent _ seed h,
           coverageProcInfo_of_coherent _ seed h⟩
  · intro ops seed p
    have h := runOps_coherent ops GrPipelineBuilder.ctor hctor
    have hca : cacheCoherent
        ((runOps ops GrPipelineBuilder.ctor).addColorProcessor p) :=
      PBOp.apply_coherent (.addColor p) _ h
    have hva : cacheCoherent
        ((runOps ops GrPipelineBuilder.ctor).addCoverageProcessor p) :=
      PBOp.apply_coherent (.addCoverage p) _ h
    exact ⟨colorProcInfo_of_coherent _ seed hca,
           coverageProcInfo_of_coherent _ seed hva⟩

end CacheCoherence

section GuardTheorems

/-- Releasing (or rebinding) a guard that is currently bound truncates
the builder's two chains back to the captured counts, whatever the new
binding is. -/
lemma ARE_set_fst_of_bound (st : GrPipelineBuilder × AutoRestoreEffects)
    (flag : Bool) (h : st.2.fBound = true) :
    (AutoRestoreEffects.set st flag).1
      = { st.1 with
          fColorStages := st.1.fColorStages.take st.2.fColorEffectCnt,
          fCoverageStages :=
            st.1.fCoverageStages.take st.2.fCoverageEffectCnt } := by
  simp only [AutoRestoreEffects.set, h]
  cases flag <;> simp

/-- Binding captures the post-release chain counts and marks the guard
bound. -/
lemma ARE_set_snd_bind (st : GrPipelineBuilder × AutoRestoreEffects) :
    (AutoRestoreEffects.set st true).2.fColorEffectCnt
      = (AutoRestoreEffects.set st true).1.numColorStages ∧
    (AutoRestoreEffects.set st true).2.fCoverageEffectCnt
      = (AutoRestoreEffects.set st true).1.numCoverageStages ∧
    (AutoRestoreEffects.set st true).2.fBound = true :=
  ⟨rfl, rfl, rfl⟩

/-- C4: bind a guard (`set(&builder)`), run any sequence of builder
operations — in particular any sequence of
`addColorProcessor`/`addCoverageProcessor` calls — then release the
guard: whether the release is `set(NULL)`/destruction (`flag = false`)
or a rebinding (`flag = true`), the builder's `numColorStages()` and
`numCoverageStages()` afterwards equal their values at the moment the
guard was bound; the stages appended during the scope are dropped. -/
theorem grARE_restores (b : GrPipelineBuilder) (are : AutoRestoreEffects)
    (adds : List PBOp) (flag : Bool) :
    (AutoRestoreEffects.set
        (runOps adds (AutoRestoreEffects.set (b, are) true).1,
         (AutoRestoreEffects.set (b, are) true).2) flag).1.numColorStages
      = (AutoRestoreEffects.set (b, are) true).1.numColorStages ∧
    (AutoRestoreEffects.set
        (runOps adds (AutoRestoreEffects.set (b, are) true).1,
         (AutoRestoreEffects.set (b, are) true).2) flag).1.numCoverageStages
      = (AutoRestoreEffects.set (b, are) true).1.numCoverageStages := by
  have hbind := ARE_set_snd_bind (b, are)
  obtain ⟨sc, sv, hsc, hsv⟩ :=
    runOps_stages adds (AutoRestoreEffects.set (b, are) true).1
  have hfst := ARE_set_fst_of_bound
      (runOps adds (AutoRestoreEffects.set (b, are) true).1,
       (AutoRestoreEffects.set (b, are) true).2) flag hbind.2.2
  constructor
  · show (AutoRestoreEffects.set _ flag).1.fColorStages.length = _
    rw [hfst]
    show ((runOps adds (AutoRestoreEffects.set (b, are) true).1).fColorStages.take
        (AutoRestoreEffects.set (b, are) true).2.fColorEffectCnt).length = _
    rw [hsc, hbind.1]
    show (((AutoRestoreEffects.set (b, are) true).1.fColorStages ++ sc).take
        (AutoRestoreEffects.set (b, are) true).1.fColorStages.length).length = _
    rw [List.take_left]
    rfl
  · show (AutoRestoreEffects.set _ flag).1.fCoverageStages.length = _
    rw [hfst]
    show ((runOps adds
        (AutoRestoreEffects.set (b, are) true).1).fCoverageStages.take
        (AutoRestoreEffects.set (b, are) true).2.fCoverageEffectCnt).length = _
    rw [hsv, hbind.2.1]
    show (((AutoRestoreEffects.set (b, are) true).1.fCoverageStages ++ sv).take
        (AutoRestoreEffects.set (b, are) true).1.fCoverageStages.length).length
        = _
    rw [List.take_left]
    rfl

end GuardTheorems

section PixelRefTheorems

/-- C9: `Install` returns false exactly when the generator is null, its
`getInfo` fails, or `dst->setInfo` on the reported info fails; in every
false case `SkDELETE(generator)` runs and `dst` receives no new pixel
ref, and in the true case a caching pixel ref wrapping the generator
(with the reported info and `dst->rowBytes()`) is installed on `dst`. -/
theorem skCachingPixelRef_Install_spec (generator : Option SkImageGenerator)
    (dst : SkBitmap) :
    ((SkCachingPixelRef.Install generator dst).ok = false ↔
       generator = none ∨
       (∃ g, generator = some g ∧ g.getInfoResult = none) ∨
       (∃ g i, generator = some g ∧ g.getInfoResult = some i ∧
          dst.setInfoOk i = false)) ∧
    ((SkCachingPixelRef.Install generator dst).ok = false →
       (SkCachingPixelRef.Install generator dst).generatorDeleted = true ∧
       (SkCachingPixelRef.Install generator dst).dst.fPixelRef
         = dst.fPixelRef) ∧
    ((SkCachingPixelRef.Install generator dst).ok = true →
       (SkCachingPixelRef.Install generator dst).generatorDeleted = false ∧
       ∃ g i, generator = some g ∧ g.getInfoResult = some i ∧
         (SkCachingPixelRef.Install generator dst).dst.fPixelRef
           = some { fInfo := i, fImageGenerator := g,
                    fErrorInDecoding := false,
                    fRowBytes := dst.fRowBytes }) := by
  cases generator with
  | none => simp [SkCachingPixelRef.Install]
  | some g =>
      cases hg : g.getInfoResult with
      | none => simp [SkCachingPixelRef.Install, hg]
      | some i =>
          by_cases hs : dst.setInfoOk i = true
          · simp [SkCachingPixelRef.Install, SkBitmap.setInfo, hg, hs]
          · simp only [Bool.not_eq_true] at hs
            simp [SkCachingPixelRef.Install, SkBitmap.setInfo, hg, hs]

/-- Witness for C9: a null generator fails with the generator deleted
and the destination untouched; a working generator and accepting bitmap
succeed, installing the wrapping pixel ref. -/
theorem skCachingPixelRef_Install_spec_witness :
    (SkCachingPixelRef.Install none
       ⟨fun _ => true, none, none, 16⟩).generatorDeleted = true ∧
    (SkCachingPixelRef.Install none
       ⟨fun _ => true, none, none, 16⟩).dst.fPixelRef = none ∧
    (SkCachingPixelRef.Install (some ⟨some 5⟩)
       ⟨fun _ => true, none, none, 16⟩).generatorDeleted = false ∧
    (SkCachingPixelRef.Install (some ⟨some 5⟩)
       ⟨fun _ => true, none, none, 16⟩).dst.fPixelRef
      = some ⟨5, ⟨some 5⟩, false, 16⟩ := by
  have h1 := (skCachingPixelRef_Install_spec none
      ⟨fun _ => true, none, none, 16⟩).2.1 rfl
  have h2 := (skCachingPixelRef_Install_spec (some ⟨some 5⟩)
      ⟨fun _ => true, none, none, 16⟩).2.2 rfl
  refine ⟨h1.1, h1.2, h2.1, ?_⟩
  obtain ⟨g, i, hgen, hinfo, href⟩ := h2.2
  cases hgen
  cases hinfo
  exact href

/-- One `onNewLockPixels` call on a pixel ref whose sticky error flag
is already set: immediate false, state untouched, no allocation
attempt, no generator invocation. -/
lemma onNewLockPixels_error (s : SkCachingPixelRef) (env : LockEnv)
    (h : s.fErrorInDecoding = true) :
    s.onNewLockPixels env = ⟨false, s, false, false⟩ := by
  simp [SkCachingPixelRef.onNewLockPixels, h]

/-- Every call in a run starting from an error-flagged pixel ref fails
without allocating or invoking the generator. -/
lemma runLocks_error (s : SkCachingPixelRef) (envs : List LockEnv)
    (h : s.fErrorInDecoding = true) :
    ∀ o ∈ runLocks s envs,
      o.ok = false ∧ o.allocAttempted = false ∧
      o.generatorInvoked = false := by
  induction envs generalizing s with
  | nil => intro o ho; simp [runLocks] at ho
  | cons e es ih =>
      intro o ho
      rw [show runLocks s (e :: es)
            = s.onNewLockPixels e :: runLocks (s.onNewLockPixels e).state es
          from rfl, onNewLockPixels_error s e h] at ho
      rcases List.mem_cons.1 ho with heq | hmem
      · rw [heq]
        exact ⟨rfl, rfl, rfl⟩
      · exact ih s h o hmem

/-- C10: the decode-error flag is sticky.  A call on an error-flagged
ref returns false immediately with the state untouched, no allocation
and no generator call; the flag is only ever set by an allocation
failure or a generator result other than success/incomplete-input (on a
cache miss); and once a call has left the flag set, every call of every
subsequent run returns false without attempting allocation or invoking
the generator. -/
theorem skCachingPixelRef_sticky (s : SkCachingPixelRef) (env : LockEnv)
    (envs : List LockEnv) :
    (s.fErrorInDecoding = true →
       s.onNewLockPixels env = ⟨false, s, false, false⟩) ∧
    (s.fErrorInDecoding = false →
       (s.onNewLockPixels env).state.fErrorInDecoding = true →
       env.cacheFind = false ∧
       (env.allocOk = false ∨ env.genResult.isDecodeError = true)) ∧
    ((s.onNewLockPixels env).state.fErrorInDecoding = true →
       ∀ o ∈ runLocks (s.onNewLockPixels env).state envs,
         o.ok = false ∧ o.allocAttempted = false ∧
         o.generatorInvoked = false) := by
  refine ⟨onNewLockPixels_error s env, ?_, ?_⟩
  · intro h0 hset
    unfold SkCachingPixelRef.onNewLockPixels at hset
    rw [h0] at hset
    simp only [Bool.false_eq_true, if_false] at hset
    by_cases hc : env.cacheFind = true
    · rw [if_pos hc] at hset
      rw [h0] at hset
      cases hset
    · simp only [Bool.not_eq_true] at hc
      refine ⟨hc, ?_⟩
      rw [hc] at hset
      simp only [Bool.false_eq_true, if_false] at hset
      by_cases ha : env.allocOk = true
      · simp only [ha, Bool.not_true, Bool.false_eq_true, if_false] at hset
        by_cases hd : env.genResult.isDecodeError = true
        · exact Or.inr hd
        · simp only [Bool.not_eq_true] at hd
          rw [hd] at hset
          simp only [Bool.false_eq_true, if_false] at hset
          rw [h0] at hset
          cases hset
      · simp only [Bool.not_eq_true] at ha
        exact Or.inl ha
  · intro hset
    exact runLocks_error _ envs hset

/-- Witness for C10: a cache miss with a failed allocation sets the
sticky flag, and the next call — even with a successful environment —
fails with no allocation attempt and no generator invocation. -/
theorem skCachingPixelRef_sticky_witness :
    ((SkCachingPixelRef.mk 0 ⟨some 0⟩ false 8).onNewLockPixels
        ⟨false, false, GenResult.kSuccess⟩).state.fErrorInDecoding = true ∧
    (((SkCachingPixelRef.mk 0 ⟨some 0⟩ false 8).onNewLockPixels
        ⟨false, false, GenResult.kSuccess⟩).state.onNewLockPixels
        ⟨false, true, GenResult.kSuccess⟩).ok = false ∧
    (((SkCachingPixelRef.mk 0 ⟨some 0⟩ false 8).onNewLockPixels
        ⟨false, false, GenResult.kSuccess⟩).state.onNewLockPixels
        ⟨false, true, GenResult.kSuccess⟩).allocAttempted = false ∧
    (((SkCachingPixelRef.mk 0 ⟨some 0⟩ false 8).onNewLockPixels
        ⟨false, false, GenResult.kSuccess⟩).state.onNewLockPixels
        ⟨false, true, GenResult.kSuccess⟩).generatorInvoked = false := by
  have herr : ((SkCachingPixelRef.mk 0 ⟨some 0⟩ false 8).onNewLockPixels
      ⟨false, false, GenResult.kSuccess⟩).state.fErrorInDecoding = true := by
    decide
  have h := (skCachingPixelRef_sticky (SkCachingPixelRef.mk 0 ⟨some 0⟩ false 8)
      ⟨false, false, GenResult.kSuccess⟩
      [⟨false, true, GenResult.kSuccess⟩]).2.2 herr
      (((SkCachingPixelRef.mk 0 ⟨some 0⟩ false 8).onNewLockPixels
          ⟨false, false, GenResult.kSuccess⟩).state.onNewLockPixels
          ⟨false, true, GenResult.kSuccess⟩)
      (by simp [runLocks])
  exact ⟨herr, h.1, h.2.1, h.2.2⟩

end PixelRefTheorems
